import Mathlib

/-
Verification development for the live-site telemetry generator
(generate_live_site.py).  The script fabricates a stream of synthetic
visit events: per tick it draws a plausible public IPv4 address, appends
an access-log line, flips four Bernoulli trials that bump the
likes/bookmarks/shares/comment counters, possibly appends a comment
drawn from a pool, rewrites the static HTML page, and sleeps a random
number of seconds.

The embedding below models the randomized parts by passing the outcomes
of the random source explicitly: a stream of octet draws for the IPv4
generator, and a record of per-tick draws (threshold samples as
rationals standing for the unit-interval outputs of random.random(),
index draws for random.choice, and a raw draw for random.randint) for
the scheduler loop.  File writes are modelled as an effect trace.
-/

/- ===== Identifier generator: random_realistic_ipv4 ===== -/

/-- One candidate IPv4 address, as the four octets of the dotted string
f"{first}.{b}.{c}.{d}" built by the generator. -/
structure Octets where
  a : Nat
  b : Nat
  c : Nat
  d : Nat
deriving DecidableEq, Repr

/-- Numeric value of the address, as ipaddress.ip_address reads it. -/
def ipNum (o : Octets) : Nat :=
  ((o.a * 256 + o.b) * 256 + o.c) * 256 + o.d

/-- Membership of an address in a CIDR network (base address and mask
bits), as ipaddress tests `ip_address(ip) in n`: the two addresses agree
above the host bits. -/
def inNet (o : Octets) (netNum : Nat) (maskBits : Nat) : Bool :=
  ipNum o / 2 ^ (32 - maskBits) == netNum / 2 ^ (32 - maskBits)

/-- The five reserved blocks checked by the generator:
10.0.0.0/8, 172.16.0.0/12, 192.168.0.0/16, 224.0.0.0/4, 240.0.0.0/4. -/
def reservedNets : List (Nat × Nat) :=
  [(ipNum ⟨10, 0, 0, 0⟩, 8),
   (ipNum ⟨172, 16, 0, 0⟩, 12),
   (ipNum ⟨192, 168, 0, 0⟩, 16),
   (ipNum ⟨224, 0, 0, 0⟩, 4),
   (ipNum ⟨240, 0, 0, 0⟩, 4)]

/-- The check `any(ipaddress.ip_address(ip) in n for n in reserved_nets)`. -/
def inAnyReserved (o : Octets) : Bool :=
  reservedNets.any (fun p => inNet o p.1 p.2)

/-- The weighted first-octet candidate list of the generator. -/
def firstOctetCandidates : List (Nat × Nat) :=
  [(3, 5), (13, 3), (18, 2), (34, 2), (35, 2), (52, 8),
   (54, 4), (66, 2), (69, 3), (70, 2), (99, 1),
   (104, 4), (107, 2), (128, 1), (130, 1), (139, 1),
   (144, 1), (151, 1), (154, 1), (162, 1), (167, 1),
   (184, 1), (185, 1), (193, 1), (195, 1), (199, 1),
   (204, 1), (205, 1), (206, 1), (207, 1), (208, 1),
   (209, 1), (216, 1)]

/-- `firsts` as unzipped in the source: the candidate first octets. -/
def firsts : List Nat := firstOctetCandidates.map Prod.fst

/-- Constraint satisfied by every draw the loop body can produce:
first octet from random.choices(firsts, ...), the middle octets from
random.randint(0, 255) and the last from random.randint(1, 254). -/
def OkDraw (o : Octets) : Prop :=
  o.a ∈ firsts ∧ o.b ≤ 255 ∧ o.c ≤ 255 ∧ 1 ≤ o.d ∧ o.d ≤ 254

instance (o : Octets) : Decidable (OkDraw o) := by
  unfold OkDraw
  infer_instance

/-- The retry loop of random_realistic_ipv4: `src` enumerates the
successive candidate draws of the random source (draw `k` first), and
`fuel` bounds the number of iterations we unroll; `none` means the loop
is still running after `fuel` attempts. -/
def random_realistic_ipv4 (src : Nat → Octets) (k fuel : Nat) : Option Octets :=
  match fuel with
  | 0 => none
  | fuel + 1 =>
    if inAnyReserved (src k) then random_realistic_ipv4 src (k + 1) fuel
    else some (src k)

/- ===== Comment pool provider: read_comments_from_pdf ===== -/

/-- Outcome of the attempt to read the comment-source document:
the PyPDF2 import can fail, the file can be missing, reading it can
raise, or it yields a list of per-page extracted texts (with None
already replaced by "" as `page.extract_text() or ""` does). -/
inductive PdfOutcome where
  | noLib
  | noFile
  | readError
  | ok (pages : List String)
deriving DecidableEq

/-- Splitting on newline characters, as `raw.splitlines()` behaves on
the provider's `raw` (a "\n"-join of non-empty page texts). -/
def splitNl : List Char → List (List Char)
  | [] => [[]]
  | c :: rest =>
    if c = '\n' then [] :: splitNl rest
    else
      match splitNl rest with
      | [] => [[c]]
      | l :: ls => (c :: l) :: ls

/-- The `"\n".join(texts)` step. -/
def joinNl : List String → List Char
  | [] => []
  | [t] => t.data
  | t :: ts => t.data ++ '\n' :: joinNl ts

/-- Python str.strip(): drop whitespace from both ends. -/
def stripWsL (l : List Char) : List Char :=
  ((l.dropWhile Char.isWhitespace).reverse.dropWhile Char.isWhitespace).reverse

/-- One line of the provider's post-processing:
`re.sub(r"[0-9\.]", "", ln).strip()` — remove digits and periods, then
trim whitespace. -/
def cleanLineL (l : List Char) : List Char :=
  stripWsL (l.filter (fun ch => !(ch.isDigit || ch == '.')))

/-- The provider: every failure mode returns the empty list; a
successful read keeps non-empty page texts, joins them with newlines,
cleans each line and keeps the non-empty results. -/
def read_comments_from_pdf (o : PdfOutcome) : List String :=
  match o with
  | PdfOutcome.noLib => []
  | PdfOutcome.noFile => []
  | PdfOutcome.readError => []
  | PdfOutcome.ok pages =>
    let texts := pages.filter (fun t => t ≠ "")
    let raw := joinNl texts
    let lines := (splitNl raw).map cleanLineL
    (lines.filter (fun l => l ≠ [])).map List.asString

/-- The built-in default pool main substitutes when the provider
returns no comments. -/
def defaultPool : List String :=
  ["Great eco concept!", "Love this design!", "So inspiring!", "Miyazaki vibes!", "Very creative!"]

/-- The pool main actually hands to the scheduler loop:
`pool = read_comments_from_pdf(pdf_path); if not pool: pool = [...]`. -/
def effectivePool (o : PdfOutcome) : List String :=
  let pool := read_comments_from_pdf o
  if pool = [] then defaultPool else pool

/- ===== Site renderer: build_html ===== -/

/-- Global constant DEFAULT_TITLE. -/
def DEFAULT_TITLE : String := "“森”的约定"

/-- Global constant DEFAULT_DESC (operator-supplied description, with
embedded markup). -/
def DEFAULT_DESC : String :=
  "在上海恒隆广场，我们不止于树立宫崎骏风格的可爱雕像——它们全部由可回收材料制作，本身就是环保理念的宣言。我们更设置了一个完整的环保叙事空间：<br>▪️ 环保产品展区，展示E公司对可持续材料的探索与应用；<br>▪️ 旧物改造艺术展，重新审视“价值”，启迪公众的环保意识。<br>感谢F公司的专业指导与小红书平台的记录，让“森计划”的种子通过线上内容，在更多人心中生根发芽。<br>未来，E公司将继续在这条路上深耕。因为守护我们共同的森林，是一场永不结束的计划。"

/-- Global constant DEFAULT_URL_PATH. -/
def DEFAULT_URL_PATH : String := "/index.html"

/-- The opening tag of one rendered comment block,
`<div class="comment">`; counting comment blocks in a document means
counting occurrences of this text. -/
def markerS : String := "<div class=\"comment\">"

/-- The marker as a character list. -/
def markerL : List Char := markerS.data

/-- One rendered comment block:
`<div class="comment"><div class="meta">{t}</div><div>{u}: {c}</div></div>`. -/
def commentBlock (e : String × String × String) : String :=
  markerS ++
  ("<div class=\"meta\">" ++
  (e.1 ++
  ("</div><div>" ++
  (e.2.1 ++
  (": " ++
  (e.2.2 ++ "</div></div>"))))))

/-- The `"".join(... for t,u,c in comments_render)` of the template. -/
def commentsSection : List (String × String × String) → String
  | [] => ""
  | e :: es => commentBlock e ++ commentsSection es

/-- The template text up to the title slot. -/
def htmlA1 : String := "<!DOCTYPE html>\n<html lang=\"zh-CN\">\n<head><meta charset=\"utf-8\"><title>"

/-- The template text between the two title slots (meta refresh plus
the style block; the braces are CSS braces). -/
def htmlA2 : String := "</title>\n<meta http-equiv=\"refresh\" content=\"15\"> <!-- ✅ 页面每15秒自动刷新 -->\n<style>\n  body\x7bfont-family:Arial,\"PingFang SC\";margin:0;padding:0;background:#fff;color:#222;\x7d\n  .container\x7bmax-width:860px;margin:40px auto;padding:0 20px;\x7d\n  .chip\x7bbackground:#f3f3f3;border-radius:30px;padding:8px 14px;margin:4px;display:inline-block;\x7d\n  .comment\x7bborder:1px solid #ddd;border-radius:10px;padding:10px;margin-bottom:8px;\x7d\n  .meta\x7bfont-size:12px;color:#777;margin-bottom:4px;\x7d\n</style></head>\n<body><div class=\"container\">\n<h1>"

/-- Template text after the second title slot, before the image path. -/
def htmlA3 : String := "</h1>\n<img src=\""

/-- Template text after the image path, before the description. -/
def htmlA4 : String := "\" style=\"width:100%;border-radius:12px;\">\n<p>"

/-- Template text after the description, opening the first chip. -/
def htmlA5 : String := "</p>\n<div>\n<span class=\"chip\">"

/-- Likes chip label. -/
def lblLikes : String := "👍 Likes: <b>"

/-- Bookmarks chip label. -/
def lblBookmarks : String := "📌 Bookmarks: <b>"

/-- Shares chip label. -/
def lblShares : String := "🔁 Shares: <b>"

/-- Comments chip label. -/
def lblComments : String := "💬 Comments: <b>"

/-- Closing bold tag after each counter value. -/
def closeB : String := "</b>"

/-- Text between two consecutive chips. -/
def sepChip : String := "</span>\n<span class=\"chip\">"

/-- Template text after the last chip, opening the comments heading. -/
def htmlA6 : String := "</span>\n</div>\n<h2>Comments ("

/-- Template text closing the comments heading. -/
def htmlA7 : String := ")</h2>\n"

/-- Template text after the rendered comment blocks. -/
def htmlA8 : String := "\n</div></body></html>"

/-- The renderer: the f-string of build_html as the concatenation of
its literal chunks and interpolated values, in source order.  The
out_dir file write is modelled separately as a render effect carrying
this document text. -/
def build_html (title desc_html image_rel_path : String)
    (totals : Nat × Nat × Nat × Nat)
    (comments_render : List (String × String × String)) : String :=
  match totals with
  | (likes, bookmarks, shares, comments) =>
    htmlA1 ++
    (title ++
    (htmlA2 ++
    (title ++
    (htmlA3 ++
    (image_rel_path ++
    (htmlA4 ++
    (desc_html ++
    (htmlA5 ++
    (lblLikes ++
    (Nat.repr likes ++
    (closeB ++
    (sepChip ++
    (lblBookmarks ++
    (Nat.repr bookmarks ++
    (closeB ++
    (sepChip ++
    (lblShares ++
    (Nat.repr shares ++
    (closeB ++
    (sepChip ++
    (lblComments ++
    (Nat.repr comments ++
    (closeB ++
    (htmlA6 ++
    (Nat.repr comments ++
    (htmlA7 ++
    (commentsSection comments_render ++ htmlA8)))))))))))))))))))))))))))

/- ===== Occurrence counting over character lists ===== -/

/-- Does `pat` occur right at the start of `s`? -/
def matchesAt : List Char → List Char → Bool
  | [], _ => true
  | _ :: _, [] => false
  | p :: ps, c :: cs => if p = c then matchesAt ps cs else false

/-- Number of positions of `s` at which `pat` occurs. -/
def countOccs (pat : List Char) : List Char → Nat
  | [] => 0
  | c :: s => (if matchesAt pat (c :: s) then 1 else 0) + countOccs pat s

/-- Does a match attempt for `pat` starting at the head of `g` fail at
a position still inside `g` (so that no continuation can rescue it)? -/
def mismatchWithin : List Char → List Char → Bool
  | [], _ => false
  | _ :: _, [] => false
  | c :: cs, p :: ps => if p = c then mismatchWithin cs ps else true

/-- Is `g` opaque to `pat`: does every match attempt started inside `g`
already fail inside `g`?  Such a `g` contributes no occurrence of `pat`
no matter what follows it. -/
def blockingB : List Char → List Char → Bool
  | [], _ => true
  | c :: cs, pat => mismatchWithin (c :: cs) pat && blockingB cs pat

/-- `sub` occurs contiguously somewhere in `s`. -/
def containsSeg (sub s : List Char) : Prop :=
  ∃ p q, s = p ++ (sub ++ q)

/-- The fields of a comment entry contain no markup start character,
so they cannot fake or break a comment-block marker. -/
def NoLtChars (e : String × String × String) : Prop :=
  (∀ ch ∈ e.1.data, ch ≠ '<') ∧ (∀ ch ∈ e.2.1.data, ch ≠ '<') ∧
  (∀ ch ∈ e.2.2.data, ch ≠ '<')

instance (e : String × String × String) : Decidable (NoLtChars e) := by
  unfold NoLtChars
  infer_instance

/-- Consistency of a rendered document with the state it was rendered
from: it contains exactly `comments` comment blocks, and each of the
four counter chips carries the corresponding counter value. -/
def rendersConsistently (title desc_html image_rel_path : String)
    (likes bookmarks shares comments : Nat)
    (entries : List (String × String × String)) : Prop :=
  countOccs markerL
      (build_html title desc_html image_rel_path
        (likes, bookmarks, shares, comments) entries).data = comments ∧
  containsSeg (lblLikes.data ++ ((Nat.repr likes).data ++ closeB.data))
      (build_html title desc_html image_rel_path
        (likes, bookmarks, shares, comments) entries).data ∧
  containsSeg (lblBookmarks.data ++ ((Nat.repr bookmarks).data ++ closeB.data))
      (build_html title desc_html image_rel_path
        (likes, bookmarks, shares, comments) entries).data ∧
  containsSeg (lblShares.data ++ ((Nat.repr shares).data ++ closeB.data))
      (build_html title desc_html image_rel_path
        (likes, bookmarks, shares, comments) entries).data ∧
  containsSeg (lblComments.data ++ ((Nat.repr comments).data ++ closeB.data))
      (build_html title desc_html image_rel_path
        (likes, bookmarks, shares, comments) entries).data

/- ===== Event scheduler: one tick of the main loop ===== -/

/-- The engagement state mutated by the loop in main: the four counters
and the ordered list of rendered comments (timestamp, handle, text). -/
structure EngagementState where
  likes : Nat
  bookmarks : Nat
  shares : Nat
  comments_cnt : Nat
  comments_render : List (String × String × String)
deriving DecidableEq

/-- Which counter a mutation event touches. -/
inductive MutField where
  | likesF
  | bookmarksF
  | sharesF
  | commentsF
deriving DecidableEq

/-- Observable effects of one tick, in the order they are performed:
the access-log append, the engagement-state mutations, the
comments-used-file append, and the site re-render. -/
inductive Eff where
  | accessLogAppend (line : String)
  | mutateField (f : MutField)
  | commentsUsedAppend (line : String)
  | renderSite (html : String)
deriving DecidableEq

/-- The outcomes the random source and clock hand one tick of the loop:
the generated ip string, the chosen user agent and referrer, the two
timestamp renderings, the four unit-interval samples of random.random()
(in draw order: like, bookmark, share, comment), the index draw behind
random.choice(pool), the handle from random_user_code4(), and the raw
draw behind random.randint(5, 300). -/
structure TickRand where
  ip : String
  ua : String
  ref : String
  tstr : String
  human_t : String
  rLike : Rat
  rBookmark : Rat
  rShare : Rat
  rComment : Rat
  poolIdx : Nat
  user : String
  sleepRaw : Nat

/-- What one tick produces: the new state, the ordered effect trace,
and the sleep duration drawn at the end. -/
structure TickResult where
  state : EngagementState
  trace : List Eff
  wait : Nat

/-- The state main starts from: all counters zero, no comments. -/
def initState : EngagementState := ⟨0, 0, 0, 0, []⟩

/-- One iteration of the while-loop in main: append the access-log
line, run the four Bernoulli trials (random.random() < 0.55 / 0.40 /
0.35 / 0.5, in that order), on a comment hit append the chosen pool
entry to the rendered list and to the comments-used file, re-render the
site, and draw the sleep duration random.randint(5, 300), modelled as
5 + raw % 296. -/
def tick (pool : List String) (imgRel : String) (rv : TickRand) (s : EngagementState) :
    TickResult :=
  let logLine := rv.ip ++ " - - [" ++ rv.tstr ++ "] \"GET " ++ DEFAULT_URL_PATH ++
    " HTTP/1.1\" 200 5123 \"" ++ rv.ref ++ "\" \"" ++ rv.ua ++ "\"\n"
  let likes2 := if rv.rLike < 55/100 then s.likes + 1 else s.likes
  let bookmarks2 := if rv.rBookmark < 40/100 then s.bookmarks + 1 else s.bookmarks
  let shares2 := if rv.rShare < 35/100 then s.shares + 1 else s.shares
  let content := pool.getD (rv.poolIdx % pool.length) ""
  let cmtLine := "[" ++ rv.human_t ++ "] " ++ rv.user ++ ": " ++ content ++ "\n"
  let comments2 := if rv.rComment < 1/2 then s.comments_cnt + 1 else s.comments_cnt
  let render2 :=
    if rv.rComment < 1/2 then s.comments_render ++ [(rv.human_t, rv.user, content)]
    else s.comments_render
  let html := build_html DEFAULT_TITLE DEFAULT_DESC imgRel
    (likes2, bookmarks2, shares2, comments2) render2
  { state := ⟨likes2, bookmarks2, shares2, comments2, render2⟩
    trace := Eff.accessLogAppend logLine ::
      (((if rv.rLike < 55/100 then [Eff.mutateField MutField.likesF] else []) ++
        ((if rv.rBookmark < 40/100 then [Eff.mutateField MutField.bookmarksF] else []) ++
         ((if rv.rShare < 35/100 then [Eff.mutateField MutField.sharesF] else []) ++
          (if rv.rComment < 1/2 then [Eff.mutateField MutField.commentsF] else [])))) ++
       ((if rv.rComment < 1/2 then [Eff.commentsUsedAppend cmtLine] else []) ++
        [Eff.renderSite html]))
    wait := 5 + rv.sleepRaw % 296 }

/-- The loop run for a number of ticks from the initial state, under a
stream of per-tick random outcomes. -/
def runTicks (pool : List String) (imgRel : String) (rs : Nat → TickRand) :
    Nat → EngagementState
  | 0 => initState
  | n + 1 => (tick pool imgRel (rs n) (runTicks pool imgRel rs n)).state

/-- The monotonicity statement of C3: counters never decrease along a
run, and one tick moves each counter up by at most one. -/
def monotoneStmt (pool : List String) (imgRel : String) (rs : Nat → TickRand)
    (rv : TickRand) (s : EngagementState) (n m : Nat) : Prop :=
  ((runTicks pool imgRel rs n).likes ≤ (runTicks pool imgRel rs m).likes ∧
   (runTicks pool imgRel rs n).bookmarks ≤ (runTicks pool imgRel rs m).bookmarks ∧
   (runTicks pool imgRel rs n).shares ≤ (runTicks pool imgRel rs m).shares ∧
   (runTicks pool imgRel rs n).comments_cnt ≤ (runTicks pool imgRel rs m).comments_cnt) ∧
  (s.likes ≤ (tick pool imgRel rv s).state.likes ∧
   (tick pool imgRel rv s).state.likes ≤ s.likes + 1 ∧
   s.bookmarks ≤ (tick pool imgRel rv s).state.bookmarks ∧
   (tick pool imgRel rv s).state.bookmarks ≤ s.bookmarks + 1 ∧
   s.shares ≤ (tick pool imgRel rv s).state.shares ∧
   (tick pool imgRel rv s).state.shares ≤ s.shares + 1 ∧
   s.comments_cnt ≤ (tick pool imgRel rv s).state.comments_cnt ∧
   (tick pool imgRel rv s).state.comments_cnt ≤ s.comments_cnt + 1)

/-- A concrete per-tick outcome: the like and share trials hit, the
bookmark and comment trials miss. -/
def sampleRand : TickRand :=
  { ip := "8.8.8.8", ua := "UA", ref := "-", tstr := "01/Jan/2025:00:00:00 +0800",
    human_t := "2025-01-01 00:00", rLike := 0, rBookmark := 40/100, rShare := 0, rComment := 1/2,
    poolIdx := 0, user := "ABCD", sleepRaw := 7 }

/- ===== THEOREMS ===== -/

/-- Every candidate first octet avoids 10, 172 and 192 and lies below
the multicast range, so no address built on it can be reserved. -/
theorem firsts_avoid_reserved_leads :
    ∀ x ∈ firsts, x ≠ 10 ∧ x ≠ 172 ∧ x ≠ 192 ∧ x < 224 := by
  decide

/-- Any draw the loop body can produce passes the reserved-blocks check. -/
theorem inAnyReserved_eq_false_of (o : Octets) (h : OkDraw o) :
    inAnyReserved o = false := by
  obtain ⟨ha, hb, hc, _, hd⟩ := h
  obtain ⟨h10, h172, h192, h224⟩ := firsts_avoid_reserved_leads o.a ha
  simp only [inAnyReserved, reservedNets, List.any_cons, List.any_nil,
    Bool.or_eq_false_iff, inNet, ipNum, beq_eq_false_iff_ne, ne_eq]
  norm_num
  omega

/-- C1: every address returned by the synthetic address generator lies
outside all five reserved blocks 10.0.0.0/8, 172.16.0.0/12,
192.168.0.0/16, 224.0.0.0/4 and 240.0.0.0/4, for every outcome of the
random source: the retry loop only ever returns a draw that passed the
reserved-blocks check. -/
theorem ipv4_returned_outside_reserved (src : Nat → Octets) (k fuel : Nat)
    (r : Octets) (h : random_realistic_ipv4 src k fuel = some r) :
    inNet r (ipNum ⟨10, 0, 0, 0⟩) 8 = false ∧
    inNet r (ipNum ⟨172, 16, 0, 0⟩) 12 = false ∧
    inNet r (ipNum ⟨192, 168, 0, 0⟩) 16 = false ∧
    inNet r (ipNum ⟨224, 0, 0, 0⟩) 4 = false ∧
    inNet r (ipNum ⟨240, 0, 0, 0⟩) 4 = false := by
  induction fuel generalizing k with
  | zero => simp [random_realistic_ipv4] at h
  | succ fuel ih =>
    rw [random_realistic_ipv4] at h
    by_cases hres : inAnyReserved (src k)
    · rw [if_pos hres] at h
      exact ih _ h
    · rw [if_neg hres] at h
      have hr : src k = r := by
        simpa using h
      rw [← hr]
      have hfalse : inAnyReserved (src k) = false := by
        simpa using hres
      simpa only [inAnyReserved, reservedNets, List.any_cons, List.any_nil,
        Bool.or_eq_false_iff, and_true] using hfalse

/-- C1 witness: a concrete random source whose first draw is 3.0.0.1;
the loop returns it and it is outside all five reserved blocks. -/
theorem ipv4_returned_outside_reserved_witness :
    random_realistic_ipv4 (fun _ => Octets.mk 3 0 0 1) 0 1 = some (Octets.mk 3 0 0 1) ∧
    (inNet ⟨3, 0, 0, 1⟩ (ipNum ⟨10, 0, 0, 0⟩) 8 = false ∧
     inNet ⟨3, 0, 0, 1⟩ (ipNum ⟨172, 16, 0, 0⟩) 12 = false ∧
     inNet ⟨3, 0, 0, 1⟩ (ipNum ⟨192, 168, 0, 0⟩) 16 = false ∧
     inNet ⟨3, 0, 0, 1⟩ (ipNum ⟨224, 0, 0, 0⟩) 4 = false ∧
     inNet ⟨3, 0, 0, 1⟩ (ipNum ⟨240, 0, 0, 0⟩) 4 = false) :=
  ⟨by decide, ipv4_returned_outside_reserved (fun _ => Octets.mk 3 0 0 1) 0 1 _ (by decide)⟩

/-- C9: the retry loop terminates, returning on its very first
iteration for every outcome of the random source, because no address
whose first octet comes from the fixed candidate list can lie in any of
the five reserved blocks it is checked against. -/
theorem ipv4_first_attempt_succeeds (src : Nat → Octets) (h : ∀ i, OkDraw (src i)) :
    (∀ k fuel, random_realistic_ipv4 src k (fuel + 1) = some (src k)) ∧
    (∀ o : Octets, OkDraw o → inAnyReserved o = false) := by
  refine ⟨fun k fuel => ?_, fun o ho => inAnyReserved_eq_false_of o ho⟩
  rw [random_realistic_ipv4, if_neg]
  simp [inAnyReserved_eq_false_of _ (h k)]

/-- C9 witness: with the constant source 3.0.0.1 (a valid draw), one
unit of fuel already returns the first draw. -/
theorem ipv4_first_attempt_succeeds_witness :
    (∀ i : Nat, OkDraw ((fun _ => Octets.mk 3 0 0 1) i)) ∧
    random_realistic_ipv4 (fun _ => Octets.mk 3 0 0 1) 5 1 = some (Octets.mk 3 0 0 1) :=
  ⟨fun _ => (by decide : OkDraw (Octets.mk 3 0 0 1)),
   (ipv4_first_attempt_succeeds (fun _ => Octets.mk 3 0 0 1)
     (fun _ => (by decide : OkDraw (Octets.mk 3 0 0 1)))).1 5 0⟩

/-- C5 counterexample: when extraction succeeds with the single line
"hello", the provider returns a non-empty pool of size 1, so the
effective pool used by the scheduler has size 1 < 5: the claimed
unconditional floor of 5 does not hold. -/
theorem pool_floor_counterexample :
    effectivePool (PdfOutcome.ok ["hello"]) = ["hello"] ∧
    (effectivePool (PdfOutcome.ok ["hello"])).length < 5 := by
  decide

/-- C5 (amended): the provider never raises past its boundary — every
failure mode (missing library, missing file, read error) returns the
empty sequence; whenever the provider returns an empty sequence the
caller substitutes the default pool, whose size is 5; and the effective
pool is always non-empty (though of size possibly below 5 when
extraction succeeds with few lines). -/
theorem pool_fallback_amended (o : PdfOutcome) :
    ((o = PdfOutcome.noLib ∨ o = PdfOutcome.noFile ∨ o = PdfOutcome.readError) →
      read_comments_from_pdf o = []) ∧
    (read_comments_from_pdf o = [] →
      effectivePool o = defaultPool ∧ 5 ≤ (effectivePool o).length) ∧
    1 ≤ (effectivePool o).length := by
  refine ⟨?_, ?_, ?_⟩
  · rintro (rfl | rfl | rfl) <;> rfl
  · intro h
    simp [effectivePool, h, defaultPool]
  · by_cases h : read_comments_from_pdf o = []
    · simp [effectivePool, h, defaultPool]
    · simp only [effectivePool, if_neg h]
      exact List.length_pos.2 h

/-- C5 witness: at the missing-file outcome, the provider returns the
empty sequence and the effective pool is the default pool of size 5. -/
theorem pool_fallback_amended_witness :
    read_comments_from_pdf PdfOutcome.noFile = [] ∧
    effectivePool PdfOutcome.noFile = defaultPool ∧
    5 ≤ (effectivePool PdfOutcome.noFile).length ∧
    1 ≤ (effectivePool PdfOutcome.noFile).length := by
  have h := pool_fallback_amended PdfOutcome.noFile
  have he : read_comments_from_pdf PdfOutcome.noFile = [] := h.1 (Or.inr (Or.inl rfl))
  exact ⟨he, (h.2.1 he).1, (h.2.1 he).2, h.2.2⟩

/-- A pattern matches at the start of itself followed by anything. -/
theorem matchesAt_append_self (pat r : List Char) : matchesAt pat (pat ++ r) = true := by
  induction pat with
  | nil => rfl
  | cons p ps ih => simp [matchesAt, ih]

/-- If a match attempt for `pat` fails inside `g`, then `pat` does not
match at the start of `g ++ r`, whatever `r` is. -/
theorem matchesAt_eq_false (g pat r : List Char) (h : mismatchWithin g pat = true) :
    matchesAt pat (g ++ r) = false := by
  induction g generalizing pat with
  | nil => simp [mismatchWithin] at h
  | cons c cs ih =>
    cases pat with
    | nil => simp [mismatchWithin] at h
    | cons p ps =>
      by_cases hpc : p = c
      · subst hpc
        simp only [mismatchWithin, if_pos rfl] at h
        simpa [matchesAt] using ih ps h
      · simp [matchesAt, hpc]

/-- A blocking chunk contributes no occurrence: occurrences of `pat` in
`g ++ r` are exactly the occurrences in `r`. -/
theorem countOccs_append_blocked (g pat : List Char) (h : blockingB g pat = true)
    (r : List Char) : countOccs pat (g ++ r) = countOccs pat r := by
  induction g with
  | nil => rfl
  | cons c cs ih =>
    rw [blockingB, Bool.and_eq_true] at h
    obtain ⟨h1, h2⟩ := h
    have hm : matchesAt pat ((c :: cs) ++ r) = false := matchesAt_eq_false _ _ _ h1
    rw [List.cons_append] at hm ⊢
    rw [countOccs, hm]
    simpa using ih h2

/-- The marker viewed as head and tail. -/
theorem markerL_cons : markerL = '<' :: ("div class=\"comment\">" : String).data := rfl

/-- Consuming one comment-block marker at the head of the text counts
exactly one occurrence: the rest of the marker is itself opaque. -/
theorem countOccs_marker_cons (r : List Char) :
    countOccs markerL (markerS.data ++ r) = 1 + countOccs markerL r := by
  have h1 : markerS.data ++ r = '<' :: (("div class=\"comment\">" : String).data ++ r) := rfl
  rw [h1, countOccs]
  have h2 : matchesAt markerL ('<' :: (("div class=\"comment\">" : String).data ++ r)) = true := by
    rw [← h1]
    exact matchesAt_append_self markerL r
  rw [h2]
  have h3 : blockingB ("div class=\"comment\">" : String).data markerL = true := by decide
  rw [countOccs_append_blocked _ _ h3 r]
  simp

/-- Characters produced by Nat.toDigitsCore base 10 are digit
characters (given the accumulator only holds such characters). -/
theorem toDigitsCore_chars (fuel : Nat) :
    ∀ (n : Nat) (acc : List Char),
      (∀ ch ∈ acc, ∃ k, k < 10 ∧ ch = Nat.digitChar k) →
      ∀ ch ∈ Nat.toDigitsCore 10 fuel n acc, ∃ k, k < 10 ∧ ch = Nat.digitChar k := by
  induction fuel with
  | zero =>
    intro n acc hacc ch hch
    rw [Nat.toDigitsCore] at hch
    exact hacc ch hch
  | succ fuel ih =>
    intro n acc hacc ch hch
    rw [Nat.toDigitsCore] at hch
    have hstep : ∀ ch ∈ (n % 10).digitChar :: acc, ∃ k, k < 10 ∧ ch = Nat.digitChar k := by
      intro ch' hch'
      rcases List.mem_cons.1 hch' with rfl | hm
      · exact ⟨n % 10, Nat.mod_lt _ (by norm_num), rfl⟩
      · exact hacc ch' hm
    by_cases h0 : n / 10 = 0
    · rw [if_pos h0] at hch
      exact hstep ch hch
    · rw [if_neg h0] at hch
      exact ih (n / 10) _ hstep ch hch

/-- The decimal rendering of a natural number never contains the
markup start character. -/
theorem repr_char_ne_lt (n : Nat) : ∀ ch ∈ (Nat.repr n).data, ch ≠ '<' := by
  intro ch hch
  have hrepr : (Nat.repr n).data = Nat.toDigitsCore 10 (n + 1) n [] := rfl
  rw [hrepr] at hch
  obtain ⟨k, hk, rfl⟩ := toDigitsCore_chars (n + 1) n [] (by simp) ch hch
  have hdig : ∀ k, k < 10 → Nat.digitChar k ≠ '<' := by decide
  exact hdig k hk

/-- Text free of the markup start character is opaque to the marker. -/
theorem blockingB_of_no_lt (s : List Char) (h : ∀ ch ∈ s, ch ≠ '<') :
    blockingB s markerL = true := by
  induction s with
  | nil => rfl
  | cons c cs ih =>
    rw [blockingB, Bool.and_eq_true]
    refine ⟨?_, ih (fun ch hch => h ch (List.mem_cons_of_mem c hch))⟩
    have hc : c ≠ '<' := h c (List.mem_cons_self c cs)
    rw [markerL_cons, mismatchWithin, if_neg (fun heq => hc heq.symm)]

/-- Peeling a counter value off the front of the remaining document. -/
theorem peel_repr (n : Nat) (r : List Char) :
    countOccs markerL ((Nat.repr n).data ++ r) = countOccs markerL r :=
  countOccs_append_blocked _ _ (blockingB_of_no_lt _ (repr_char_ne_lt n)) r

/-- Peeling the head template chunk. -/
theorem peel_htmlA1 (r : List Char) :
    countOccs markerL (htmlA1.data ++ r) = countOccs markerL r :=
  countOccs_append_blocked _ _ (by decide) r

set_option maxRecDepth 8000 in
/-- Peeling the style-block chunk. -/
theorem peel_htmlA2 (r : List Char) :
    countOccs markerL (htmlA2.data ++ r) = countOccs markerL r :=
  countOccs_append_blocked _ _ (by decide) r

/-- Peeling the chunk before the image path. -/
theorem peel_htmlA3 (r : List Char) :
    countOccs markerL (htmlA3.data ++ r) = countOccs markerL r :=
  countOccs_append_blocked _ _ (by decide) r

/-- Peeling the chunk before the description. -/
theorem peel_htmlA4 (r : List Char) :
    countOccs markerL (htmlA4.data ++ r) = countOccs markerL r :=
  countOccs_append_blocked _ _ (by decide) r

/-- Peeling the chunk opening the first chip. -/
theorem peel_htmlA5 (r : List Char) :
    countOccs markerL (htmlA5.data ++ r) = countOccs markerL r :=
  countOccs_append_blocked _ _ (by decide) r

/-- Peeling the likes label. -/
theorem peel_lblLikes (r : List Char) :
    countOccs markerL (lblLikes.data ++ r) = countOccs markerL r :=
  countOccs_append_blocked _ _ (by decide) r

/-- Peeling the bookmarks label. -/
theorem peel_lblBookmarks (r : List Char) :
    countOccs markerL (lblBookmarks.data ++ r) = countOccs markerL r :=
  countOccs_append_blocked _ _ (by decide) r

/-- Peeling the shares label. -/
theorem peel_lblShares (r : List Char) :
    countOccs markerL (lblShares.data ++ r) = countOccs markerL r :=
  countOccs_append_blocked _ _ (by decide) r

/-- Peeling the comments label. -/
theorem peel_lblComments (r : List Char) :
    countOccs markerL (lblComments.data ++ r) = countOccs markerL r :=
  countOccs_append_blocked _ _ (by decide) r

/-- Peeling the closing bold tag. -/
theorem peel_closeB (r : List Char) :
    countOccs markerL (closeB.data ++ r) = countOccs markerL r :=
  countOccs_append_blocked _ _ (by decide) r

/-- Peeling the chip separator. -/
theorem peel_sepChip (r : List Char) :
    countOccs markerL (sepChip.data ++ r) = countOccs markerL r :=
  countOccs_append_blocked _ _ (by decide) r

/-- Peeling the comments-heading opener. -/
theorem peel_htmlA6 (r : List Char) :
    countOccs markerL (htmlA6.data ++ r) = countOccs markerL r :=
  countOccs_append_blocked _ _ (by decide) r

/-- Peeling the comments-heading closer. -/
theorem peel_htmlA7 (r : List Char) :
    countOccs markerL (htmlA7.data ++ r) = countOccs markerL r :=
  countOccs_append_blocked _ _ (by decide) r

/-- Peeling the meta tag inside a comment block. -/
theorem peel_metaTag (r : List Char) :
    countOccs markerL (("<div class=\"meta\">" : String).data ++ r) = countOccs markerL r :=
  countOccs_append_blocked _ _ (by decide) r

/-- Peeling the tag between timestamp and handle in a comment block. -/
theorem peel_midTag (r : List Char) :
    countOccs markerL (("</div><div>" : String).data ++ r) = countOccs markerL r :=
  countOccs_append_blocked _ _ (by decide) r

/-- Peeling the colon-space between handle and text. -/
theorem peel_colon (r : List Char) :
    countOccs markerL ((": " : String).data ++ r) = countOccs markerL r :=
  countOccs_append_blocked _ _ (by decide) r

/-- Peeling the closing tags of a comment block. -/
theorem peel_endTags (r : List Char) :
    countOccs markerL (("</div></div>" : String).data ++ r) = countOccs markerL r :=
  countOccs_append_blocked _ _ (by decide) r

/-- The rendered comment section contributes exactly one comment-block
marker per entry, provided the entry fields carry no markup start
character. -/
theorem countOccs_section_eq (entries : List (String × String × String))
    (hE : ∀ e ∈ entries, NoLtChars e) (r : List Char) :
    countOccs markerL ((commentsSection entries).data ++ r) =
      entries.length + countOccs markerL r := by
  induction entries with
  | nil => simp [commentsSection]
  | cons e es ih =>
    obtain ⟨h1, h2, h3⟩ := hE e (List.mem_cons_self e es)
    have hes : ∀ x ∈ es, NoLtChars x := fun x hx => hE x (List.mem_cons_of_mem e hx)
    simp only [commentsSection, commentBlock, String.data_append, List.append_assoc]
    rw [countOccs_marker_cons, peel_metaTag,
      countOccs_append_blocked _ _ (blockingB_of_no_lt _ h1),
      peel_midTag,
      countOccs_append_blocked _ _ (blockingB_of_no_lt _ h2),
      peel_colon,
      countOccs_append_blocked _ _ (blockingB_of_no_lt _ h3),
      peel_endTags, ih hes]
    simp only [List.length_cons]
    omega

/-- A segment of `s` is a segment of `a ++ s`. -/
theorem containsSeg_appL (a s sub : List Char) (h : containsSeg sub s) :
    containsSeg sub (a ++ s) := by
  obtain ⟨p, q, rfl⟩ := h
  exact ⟨a ++ p, q, by simp [List.append_assoc]⟩

/-- A segment of `s` is a segment of `s ++ b`. -/
theorem containsSeg_appR (s b sub : List Char) (h : containsSeg sub s) :
    containsSeg sub (s ++ b) := by
  obtain ⟨p, q, rfl⟩ := h
  exact ⟨p, q ++ b, by simp [List.append_assoc]⟩

/-- A list starts with itself. -/
theorem containsSeg_self (sub rest : List Char) : containsSeg sub (sub ++ rest) :=
  ⟨[], rest, by simp⟩

/-- A three-piece segment sitting at the head of a list. -/
theorem containsSeg_here (x y z rest : List Char) :
    containsSeg (x ++ (y ++ z)) (x ++ (y ++ (z ++ rest))) :=
  ⟨[], rest, by simp [List.append_assoc]⟩

/-- Each field of each entry appears verbatim in the rendered comment
section. -/
theorem section_contains_fields (entries : List (String × String × String))
    (t u c : String) (h : (t, u, c) ∈ entries) :
    containsSeg t.data (commentsSection entries).data ∧
    containsSeg u.data (commentsSection entries).data ∧
    containsSeg c.data (commentsSection entries).data := by
  induction entries with
  | nil => cases h
  | cons e es ih =>
    rcases List.mem_cons.1 h with heq | hmem
    · subst heq
      simp only [commentsSection, commentBlock, String.data_append, List.append_assoc]
      refine ⟨?_, ?_, ?_⟩
      · apply containsSeg_appL
        apply containsSeg_appL
        exact containsSeg_self _ _
      · apply containsSeg_appL
        apply containsSeg_appL
        apply containsSeg_appL
        apply containsSeg_appL
        exact containsSeg_self _ _
      · apply containsSeg_appL
        apply containsSeg_appL
        apply containsSeg_appL
        apply containsSeg_appL
        apply containsSeg_appL
        apply containsSeg_appL
        exact containsSeg_self _ _
    · have hih := ih hmem
      simp only [commentsSection, String.data_append]
      exact ⟨containsSeg_appL _ _ _ hih.1, containsSeg_appL _ _ _ hih.2.1,
        containsSeg_appL _ _ _ hih.2.2⟩

set_option maxRecDepth 100000 in
/-- C4 counterexample: the unrestricted claim fails.  A comment text
equal to the literal block-opening tag survives the provider's
digit/period cleaning and is embedded raw, so a state with one rendered
entry and commentCount = 1 — the data-model invariant holds — renders a
document containing 2 comment blocks, not 1. -/
theorem rendered_html_blockcount_counterexample :
    ([("ts", "AAAA", "<div class=\"comment\">")] :
      List (String × String × String)).length = 1 ∧
    countOccs markerL
      (build_html "T" "D" "I" (0, 0, 0, 1)
        [("ts", "AAAA", "<div class=\"comment\">")]).data = 2 :=
  ⟨rfl, by decide⟩

/-- C4 (amended): for every engagement state satisfying the data-model
invariant (commentCount equals the number of rendered entries) whose
embedded texts cannot fake a block marker (the title, description and
image path are opaque to it and the comment fields contain no markup
start character, as holds for the constants and pools of the program),
the HTML document produced by the renderer contains exactly
commentCount comment blocks, and the four counter chips embed exactly
the likes, bookmarks, shares and comment-count values of the state
passed in. -/
theorem rendered_html_consistent (title desc_html image_rel_path : String)
    (likes bookmarks shares comments : Nat)
    (entries : List (String × String × String))
    (hT : blockingB title.data markerL = true)
    (hD : blockingB desc_html.data markerL = true)
    (hI : blockingB image_rel_path.data markerL = true)
    (hE : ∀ e ∈ entries, NoLtChars e)
    (hInv : comments = entries.length) :
    rendersConsistently title desc_html image_rel_path likes bookmarks shares comments entries := by
  simp only [rendersConsistently]
  refine ⟨?_, ?_, ?_, ?_, ?_⟩
  · simp only [build_html, String.data_append]
    rw [peel_htmlA1, countOccs_append_blocked _ _ hT, peel_htmlA2,
      countOccs_append_blocked _ _ hT, peel_htmlA3, countOccs_append_blocked _ _ hI,
      peel_htmlA4, countOccs_append_blocked _ _ hD, peel_htmlA5, peel_lblLikes,
      peel_repr, peel_closeB, peel_sepChip, peel_lblBookmarks, peel_repr, peel_closeB,
      peel_sepChip, peel_lblShares, peel_repr, peel_closeB, peel_sepChip,
      peel_lblComments, peel_repr, peel_closeB, peel_htmlA6, peel_repr, peel_htmlA7,
      countOccs_section_eq entries hE]
    have h8 : countOccs markerL htmlA8.data = 0 := by decide
    rw [h8, hInv]
    omega
  · simp only [build_html, String.data_append]
    iterate 9 (apply containsSeg_appL)
    exact containsSeg_here _ _ _ _
  · simp only [build_html, String.data_append]
    iterate 13 (apply containsSeg_appL)
    exact containsSeg_here _ _ _ _
  · simp only [build_html, String.data_append]
    iterate 17 (apply containsSeg_appL)
    exact containsSeg_here _ _ _ _
  · simp only [build_html, String.data_append]
    iterate 21 (apply containsSeg_appL)
    exact containsSeg_here _ _ _ _

/-- C4 witness: a concrete render with one comment entry and counter
values (0, 0, 0, 1): the hypotheses hold by computation and the
rendered document is consistent. -/
theorem rendered_html_consistent_witness :
    blockingB ("T" : String).data markerL = true ∧
    blockingB ("D" : String).data markerL = true ∧
    blockingB ("I" : String).data markerL = true ∧
    (∀ e ∈ ([("a", "b", "c")] : List (String × String × String)), NoLtChars e) ∧
    1 = ([("a", "b", "c")] : List (String × String × String)).length ∧
    rendersConsistently "T" "D" "I" 0 0 0 1 ([("a", "b", "c")] : List (String × String × String)) :=
  ⟨by decide, by decide, by decide, by decide, rfl,
   rendered_html_consistent "T" "D" "I" 0 0 0 1 _
     (by decide) (by decide) (by decide) (by decide) rfl⟩

/-- C10: the renderer embeds each comment entry's timestamp, handle and
text into the HTML document verbatim, with no HTML escaping applied:
whatever characters they contain (markup-significant or not) appear
unchanged as a contiguous segment of the output document. -/
theorem html_embeds_comments_verbatim (title desc_html image_rel_path : String)
    (totals : Nat × Nat × Nat × Nat) (entries : List (String × String × String))
    (t u c : String) (hmem : (t, u, c) ∈ entries) :
    containsSeg t.data (build_html title desc_html image_rel_path totals entries).data ∧
    containsSeg u.data (build_html title desc_html image_rel_path totals entries).data ∧
    containsSeg c.data (build_html title desc_html image_rel_path totals entries).data := by
  obtain ⟨l, b, s, cm⟩ := totals
  have hsec := section_contains_fields entries t u c hmem
  refine ⟨?_, ?_, ?_⟩ <;> simp only [build_html, String.data_append]
  · iterate 27 (apply containsSeg_appL)
    exact containsSeg_appR _ _ _ hsec.1
  · iterate 27 (apply containsSeg_appL)
    exact containsSeg_appR _ _ _ hsec.2.1
  · iterate 27 (apply containsSeg_appL)
    exact containsSeg_appR _ _ _ hsec.2.2

/-- C10 witness: an entry whose fields are raw markup is still embedded
verbatim in a concrete rendered document. -/
theorem html_embeds_comments_verbatim_witness :
    (("<i>", "<u>", "x & y < z") ∈
      ([("<i>", "<u>", "x & y < z")] : List (String × String × String))) ∧
    (containsSeg ("<i>" : String).data
        (build_html "T" "D" "I" (0, 0, 0, 1)
          ([("<i>", "<u>", "x & y < z")] : List (String × String × String))).data ∧
     containsSeg ("<u>" : String).data
        (build_html "T" "D" "I" (0, 0, 0, 1)
          ([("<i>", "<u>", "x & y < z")] : List (String × String × String))).data ∧
     containsSeg ("x & y < z" : String).data
        (build_html "T" "D" "I" (0, 0, 0, 1)
          ([("<i>", "<u>", "x & y < z")] : List (String × String × String))).data) :=
  ⟨List.mem_singleton.2 rfl,
   html_embeds_comments_verbatim "T" "D" "I" (0, 0, 0, 1) _ _ _ _
     (List.mem_singleton.2 rfl)⟩

/-- Membership in a conditional singleton forces the element. -/
theorem mem_ite_singleton {c : Prop} [Decidable c] {e x : Eff}
    (h : e ∈ if c then [x] else ([] : List Eff)) : e = x := by
  by_cases hc : c
  · rw [if_pos hc] at h
    simpa using h
  · rw [if_neg hc] at h
    simp at h

/-- C2: the comment counter equals the length of the rendered-comments
list after every tick: the run starts at (0, empty list), and each tick
either increments the counter by one and appends exactly one entry, or
leaves both unchanged. -/
theorem commentCount_matches_renderedComments (pool : List String) (imgRel : String)
    (rs : Nat → TickRand) :
    runTicks pool imgRel rs 0 = initState ∧
    (∀ n, (runTicks pool imgRel rs n).comments_cnt =
      (runTicks pool imgRel rs n).comments_render.length) ∧
    (∀ (rv : TickRand) (s : EngagementState),
      ((tick pool imgRel rv s).state.comments_cnt = s.comments_cnt + 1 ∧
       ∃ e, (tick pool imgRel rv s).state.comments_render = s.comments_render ++ [e]) ∨
      ((tick pool imgRel rv s).state.comments_cnt = s.comments_cnt ∧
       (tick pool imgRel rv s).state.comments_render = s.comments_render)) := by
  have htick : ∀ (rv : TickRand) (s : EngagementState),
      ((tick pool imgRel rv s).state.comments_cnt = s.comments_cnt + 1 ∧
       ∃ e, (tick pool imgRel rv s).state.comments_render = s.comments_render ++ [e]) ∨
      ((tick pool imgRel rv s).state.comments_cnt = s.comments_cnt ∧
       (tick pool imgRel rv s).state.comments_render = s.comments_render) := by
    intro rv s
    by_cases h : rv.rComment < 1/2
    · exact Or.inl ⟨by simp only [tick]; rw [if_pos h],
        ⟨_, by simp only [tick]; rw [if_pos h]⟩⟩
    · exact Or.inr ⟨by simp only [tick]; rw [if_neg h],
        by simp only [tick]; rw [if_neg h]⟩
  refine ⟨rfl, ?_, htick⟩
  intro n
  induction n with
  | zero => rfl
  | succ n ih =>
    show (tick pool imgRel (rs n) (runTicks pool imgRel rs n)).state.comments_cnt = _
    rcases htick (rs n) (runTicks pool imgRel rs n) with ⟨h1, e, h2⟩ | ⟨h1, h2⟩
    · rw [h1, ih]
      show _ = (tick pool imgRel (rs n) (runTicks pool imgRel rs n)).state.comments_render.length
      rw [h2]
      simp
    · rw [h1, ih]
      show _ = (tick pool imgRel (rs n) (runTicks pool imgRel rs n)).state.comments_render.length
      rw [h2]

/-- C3: across any run, each of the four counters is non-decreasing,
and a single tick increases each counter by at most one. -/
theorem counters_monotone (pool : List String) (imgRel : String) (rs : Nat → TickRand)
    (rv : TickRand) (s : EngagementState) (n m : Nat) (hnm : n ≤ m) :
    monotoneStmt pool imgRel rs rv s n m := by
  have hbounds : ∀ (rv' : TickRand) (s' : EngagementState),
      s'.likes ≤ (tick pool imgRel rv' s').state.likes ∧
      (tick pool imgRel rv' s').state.likes ≤ s'.likes + 1 ∧
      s'.bookmarks ≤ (tick pool imgRel rv' s').state.bookmarks ∧
      (tick pool imgRel rv' s').state.bookmarks ≤ s'.bookmarks + 1 ∧
      s'.shares ≤ (tick pool imgRel rv' s').state.shares ∧
      (tick pool imgRel rv' s').state.shares ≤ s'.shares + 1 ∧
      s'.comments_cnt ≤ (tick pool imgRel rv' s').state.comments_cnt ∧
      (tick pool imgRel rv' s').state.comments_cnt ≤ s'.comments_cnt + 1 := by
    intro rv' s'
    refine ⟨?_, ?_, ?_, ?_, ?_, ?_, ?_, ?_⟩ <;> simp only [tick] <;> split <;> omega
  refine ⟨?_, hbounds rv s⟩
  induction hnm with
  | refl => exact ⟨le_refl _, le_refl _, le_refl _, le_refl _⟩
  | @step m hm ih =>
    obtain ⟨hl1, hl2, hb1, hb2, hs1, hs2, hc1, hc2⟩ :=
      hbounds (rs m) (runTicks pool imgRel rs m)
    exact ⟨le_trans ih.1 hl1, le_trans ih.2.1 hb1, le_trans ih.2.2.1 hs1,
      le_trans ih.2.2.2 hc1⟩

/-- C3 witness: the monotonicity statement instantiated at a concrete
run of one tick. -/
theorem counters_monotone_witness :
    (0 : Nat) ≤ 1 ∧
    monotoneStmt [] "" (fun _ => sampleRand) sampleRand initState 0 1 :=
  ⟨by decide,
   counters_monotone [] "" (fun _ => sampleRand) sampleRand initState 0 1 (by decide)⟩

/-- C6: the sleep duration sampled at the end of every tick is an
integer in the inclusive range [5, 300], for every outcome of the
random source. -/
theorem sleep_duration_in_range (pool : List String) (imgRel : String) (rv : TickRand)
    (s : EngagementState) :
    5 ≤ (tick pool imgRel rv s).wait ∧ (tick pool imgRel rv s).wait ≤ 300 := by
  constructor <;> simp only [tick] <;> omega

/-- C7: on a tick whose Bernoulli outcomes are like=true,
bookmark=false, share=true, comment=false (thresholds 0.55, 0.40, 0.35,
0.50), starting from the all-zero state, the tick yields likes=1,
bookmarks=0, shares=1, commentCount=0, and the rendered-comments list
is unchanged (still empty). -/
theorem scenario_single_tick (pool : List String) (imgRel : String) (rv : TickRand)
    (hLike : rv.rLike < 55/100) (hBm : ¬(rv.rBookmark < 40/100))
    (hSh : rv.rShare < 35/100) (hCm : ¬(rv.rComment < 1/2)) :
    (tick pool imgRel rv initState).state =
      { likes := 1, bookmarks := 0, shares := 1, comments_cnt := 0,
        comments_render := [] } := by
  simp only [tick, initState]
  rw [if_pos hLike, if_neg hBm, if_pos hSh, if_neg hCm, if_neg hCm]

/-- C7 witness: the scenario at the concrete outcome sampleRand. -/
theorem scenario_single_tick_witness :
    (sampleRand.rLike < 55/100 ∧ ¬(sampleRand.rBookmark < 40/100) ∧
     sampleRand.rShare < 35/100 ∧ ¬(sampleRand.rComment < 1/2)) ∧
    (tick [] "" sampleRand initState).state =
      { likes := 1, bookmarks := 0, shares := 1, comments_cnt := 0,
        comments_render := [] } :=
  ⟨⟨by simp [sampleRand], by simp [sampleRand], by simp [sampleRand], by simp [sampleRand]⟩,
   scenario_single_tick [] "" sampleRand (by simp [sampleRand]) (by simp [sampleRand])
     (by simp [sampleRand]) (by simp [sampleRand])⟩

/-- C8: within every tick the effect trace is exactly one access-log
append, followed by the state mutations, followed by the
comments-used-file append (present exactly when a comment fired),
followed by the site re-render — never interleaved in any other
order. -/
theorem tick_effect_ordering (pool : List String) (imgRel : String) (rv : TickRand)
    (s : EngagementState) :
    ∃ (logLine : String) (muts capps : List Eff) (html : String),
      (tick pool imgRel rv s).trace =
        Eff.accessLogAppend logLine :: (muts ++ (capps ++ [Eff.renderSite html])) ∧
      (∀ e ∈ muts, ∃ f, e = Eff.mutateField f) ∧
      (∀ e ∈ capps, ∃ line, e = Eff.commentsUsedAppend line) := by
  refine ⟨_, _, _, _, rfl, ?_, ?_⟩
  · intro e he
    rcases List.mem_append.1 he with h | h
    · exact ⟨_, mem_ite_singleton h⟩
    rcases List.mem_append.1 h with h | h
    · exact ⟨_, mem_ite_singleton h⟩
    rcases List.mem_append.1 h with h | h
    · exact ⟨_, mem_ite_singleton h⟩
    · exact ⟨_, mem_ite_singleton h⟩
  · intro e he
    exact ⟨_, mem_ite_singleton he⟩
